import Mathlib

/-!
# Verification of the cart state machine (`src/context/CartProvider.tsx`)

A shallow embedding of the shopping-cart reducer and the derived-value
computations of the `useCartContext` hook, together with proofs of the
spec's testable properties.

Modelling conventions:
* JavaScript numbers holding prices are modelled as exact rationals (`ℚ`);
  quantities are integers (`ℤ`), as the spec types them.
* A reducer that `throw`s is modelled as `Except CartError`; the React
  dispatch leaves the state unchanged when the reducer throws (`step`).
* `Array.prototype.sort` is a stable in-place sort (ES2019); it is modelled
  by Mathlib's stable `List.insertionSort` on the comparator's ordering,
  and the in-place mutation is made explicit in `useCartContext`, which
  returns the post-read state alongside the read values.
-/

/-- `CartItemType` from `CartProvider.tsx`: `{ sku, name, price, qty }`. -/
structure CartItemType where
  sku : String
  name : String
  price : ℚ
  qty : ℤ
deriving DecidableEq, Repr

/-- `CartStateType` from `CartProvider.tsx`: `{ cart: CartItemType[] }`. -/
structure CartStateType where
  cart : List CartItemType
deriving DecidableEq, Repr

/-- `initCartState`: the empty cart. -/
def initCartState : CartStateType := ⟨[]⟩

/-- The three distinct throw sites of the reducer, named as the spec's
error kinds (§7): missing payload, QUANTITY on an absent sku, and an
unknown action type. -/
inductive CartError where
  | ValidationError
  | NotFoundError
  | UnrecognizedActionError
deriving DecidableEq, Repr

instance {ε α : Type} [DecidableEq ε] [DecidableEq α] : DecidableEq (Except ε α)
  | .ok a, .ok b => decidable_of_iff (a = b) (by simp)
  | .ok _, .error _ => isFalse (by simp)
  | .error _, .ok _ => isFalse (by simp)
  | .error e, .error f => decidable_of_iff (e = f) (by simp)

/-- `ReducerAction` from `CartProvider.tsx`: `{ type: string, payload?: CartItemType }`. -/
structure ReducerAction where
  type : String
  payload : Option CartItemType
deriving DecidableEq, Repr

/-- The `reducer` of `CartProvider.tsx`: a four-case switch on
`action.type` over the strings of `REDUCER_ACTION_TYPE`, throwing
(modelled as `Except.error`) on a missing payload, on QUANTITY for an
absent sku, and on an unrecognized action type. -/
def reducer (state : CartStateType) (action : ReducerAction) :
    Except CartError CartStateType :=
  if action.type = "ADD" then
    match action.payload with
    | none => .error .ValidationError
    | some payload =>
      let filteredCart := state.cart.filter (fun item => item.sku ≠ payload.sku)
      let itemExists := state.cart.find? (fun item => item.sku == payload.sku)
      let qty : ℤ := match itemExists with
        | some item => item.qty + 1
        | none => 1
      .ok ⟨filteredCart ++ [⟨payload.sku, payload.name, payload.price, qty⟩]⟩
  else if action.type = "REMOVE" then
    match action.payload with
    | none => .error .ValidationError
    | some payload =>
      .ok ⟨state.cart.filter (fun item => item.sku ≠ payload.sku)⟩
  else if action.type = "QUANTITY" then
    match action.payload with
    | none => .error .ValidationError
    | some payload =>
      match state.cart.find? (fun item => item.sku == payload.sku) with
      | none => .error .NotFoundError
      | some itemExists =>
        let updatedItem : CartItemType := { itemExists with qty := payload.qty }
        .ok ⟨state.cart.filter (fun item => item.sku ≠ payload.sku) ++ [updatedItem]⟩
  else if action.type = "SUBMIT" then
    .ok ⟨[]⟩
  else
    .error .UnrecognizedActionError

/-- One dispatch as seen by React's `useReducer`: when the reducer throws,
the exception propagates and the held state is not replaced. -/
def step (state : CartStateType) (action : ReducerAction) : CartStateType :=
  match reducer state action with
  | .ok next => next
  | .error _ => state

/-- The state after dispatching a sequence of actions from the initial
(empty) cart state. -/
def run (actions : List ReducerAction) : CartStateType :=
  actions.foldl step initCartState

/-- Decimal digit accumulation: `some` of the value of a digit string,
`none` as soon as a non-digit character appears. -/
def parseNatDigits : List Char → ℕ → Option ℕ
  | [], acc => some acc
  | c :: cs, acc =>
    if c.isDigit then parseNatDigits cs (acc * 10 + (c.toNat - '0'.toNat)) else none

/-- `Number(str)` restricted to non-empty plain digit strings, the only
inputs the display-order comparator meets when the spec's sort key is
well defined. -/
def strToNat? (s : String) : Option ℕ :=
  if s.data.isEmpty then none else parseNatDigits s.data 0

/-- The sort key of the display-order comparator:
`Number(sku.slice(-4))`, the last four characters of the sku read as an
integer.  `String.drop (length - 4)` is exactly `slice(-4)` (the whole
string when shorter than four characters).  For a suffix that is not a
plain digit string the JavaScript comparator yields `NaN` and the spec
leaves the behaviour undefined (§9); the model defaults to `0` there and
every theorem about the order assumes digit suffixes. -/
def skuKey (sku : String) : ℕ :=
  (strToNat? (sku.drop (sku.length - 4))).getD 0

/-- A sku whose last four characters are plain digits, the only case in
which the source's comparator is well defined. -/
def numericSuffix (sku : String) : Prop :=
  (strToNat? (sku.drop (sku.length - 4))).isSome = true

instance (sku : String) : Decidable (numericSuffix sku) := by
  unfold numericSuffix; infer_instance

/-- The ordering the display-sort comparator
`(a, b) => Number(a.sku.slice(-4)) - Number(b.sku.slice(-4))` induces. -/
def keyLE (a b : CartItemType) : Prop :=
  skuKey a.sku ≤ skuKey b.sku

instance : DecidableRel keyLE := fun a b => by
  unfold keyLE; infer_instance

instance : IsTotal CartItemType keyLE :=
  ⟨fun a b => Nat.le_total (skuKey a.sku) (skuKey b.sku)⟩

instance : IsTrans CartItemType keyLE :=
  ⟨fun _ _ _ hab hbc => Nat.le_trans hab hbc⟩

/-- `totalItems` of `useCartContext`: `state.cart.reduce((p, i) => p + i.qty, 0)`. -/
def totalItems (state : CartStateType) : ℤ :=
  state.cart.foldl (fun previousValue cartItem => previousValue + cartItem.qty) 0

/-- The raw sum inside `totalPrice`:
`state.cart.reduce((p, i) => p + i.qty * i.price, 0)`. -/
def totalPriceRaw (state : CartStateType) : ℚ :=
  state.cart.foldl
    (fun previousValue cartItem => previousValue + cartItem.qty * cartItem.price) 0

/-- Zero-pad a remainder of cents to two digits. -/
def padLeft2 (n : ℕ) : String :=
  if n < 10 then "0" ++ toString n else toString n

/-- Insert a comma after every three digits of a least-significant-first
digit list, as long as more digits follow. -/
def groupRev : List Char → List Char
  | c1 :: c2 :: c3 :: c4 :: rest => c1 :: c2 :: c3 :: ',' :: groupRev (c4 :: rest)
  | l => l

/-- Render a natural number with en-US thousands grouping. -/
def groupDigits (n : ℕ) : String :=
  String.mk (groupRev (Nat.toDigits 10 n).reverse).reverse

/-- Round to the nearest integer, halves away from zero — the default
`halfExpand` rounding of `Intl.NumberFormat`. -/
def roundHalfAwayFromZero (q : ℚ) : ℤ :=
  if q < 0 then -(⌊-q + 1 / 2⌋) else ⌊q + 1 / 2⌋

/-- `new Intl.NumberFormat("en-US", { style: "currency", currency: "USD" }).format`:
a dollar sign, comma-grouped dollars, and two fraction digits obtained by
`halfExpand` rounding to cents. -/
def formatUSD (q : ℚ) : String :=
  let cents := roundHalfAwayFromZero (q * 100)
  let sign := if cents < 0 then "-" else ""
  let magnitude := cents.natAbs
  sign ++ "$" ++ groupDigits (magnitude / 100) ++ "." ++ padLeft2 (magnitude % 100)

/-- `totalPrice` of `useCartContext`: the raw sum, currency formatted. -/
def totalPrice (state : CartStateType) : String :=
  formatUSD (totalPriceRaw state)

/-- The sorted cart `useCartContext` exposes as `cart`:
`state.cart.sort((a, b) => Number(a.sku.slice(-4)) - Number(b.sku.slice(-4)))`,
a stable ascending sort by `skuKey`. -/
def displayOrder (state : CartStateType) : List CartItemType :=
  state.cart.insertionSort keyLE

/-- The read values `useCartContext` returns: `totalItems`, `totalPrice`
and the sorted `cart`. -/
structure CartReads where
  totalItems : ℤ
  totalPrice : String
  cart : List CartItemType
deriving DecidableEq, Repr

/-- One evaluation of the `useCartContext` hook body: `totalItems` and
`totalPrice` are computed from the cart as it stands, then
`state.cart.sort(...)` sorts the state's array IN PLACE, so the hook also
yields a post-read state whose cart is the sorted array. -/
def useCartContext (state : CartStateType) : CartReads × CartStateType :=
  let ti := totalItems state
  let tp := totalPrice state
  let sortedCart := displayOrder state
  (⟨ti, tp, sortedCart⟩, ⟨sortedCart⟩)
/-! ## Helper lemmas: how the reducer evaluates on each action shape -/

lemma reducer_ADD_none (s : CartStateType) :
    reducer s ⟨"ADD", none⟩ = .error .ValidationError := by simp [reducer]

lemma reducer_ADD_found (s : CartStateType) (p item : CartItemType)
    (hf : s.cart.find? (fun i => i.sku == p.sku) = some item) :
    reducer s ⟨"ADD", some p⟩
      = .ok ⟨s.cart.filter (fun i => i.sku ≠ p.sku)
          ++ [⟨p.sku, p.name, p.price, item.qty + 1⟩]⟩ := by
  simp [reducer, hf]

lemma reducer_ADD_new (s : CartStateType) (p : CartItemType)
    (hf : s.cart.find? (fun i => i.sku == p.sku) = none) :
    reducer s ⟨"ADD", some p⟩
      = .ok ⟨s.cart.filter (fun i => i.sku ≠ p.sku)
          ++ [⟨p.sku, p.name, p.price, 1⟩]⟩ := by
  simp [reducer, hf]

lemma reducer_REMOVE_none (s : CartStateType) :
    reducer s ⟨"REMOVE", none⟩ = .error .ValidationError := by simp [reducer]

lemma reducer_REMOVE_some (s : CartStateType) (p : CartItemType) :
    reducer s ⟨"REMOVE", some p⟩
      = .ok ⟨s.cart.filter (fun i => i.sku ≠ p.sku)⟩ := by
  simp [reducer]

lemma reducer_QUANTITY_none (s : CartStateType) :
    reducer s ⟨"QUANTITY", none⟩ = .error .ValidationError := by simp [reducer]

lemma reducer_QUANTITY_found (s : CartStateType) (p item : CartItemType)
    (hf : s.cart.find? (fun i => i.sku == p.sku) = some item) :
    reducer s ⟨"QUANTITY", some p⟩
      = .ok ⟨s.cart.filter (fun i => i.sku ≠ p.sku) ++ [{ item with qty := p.qty }]⟩ := by
  simp [reducer, hf]

lemma reducer_QUANTITY_missing (s : CartStateType) (p : CartItemType)
    (hf : s.cart.find? (fun i => i.sku == p.sku) = none) :
    reducer s ⟨"QUANTITY", some p⟩ = .error .NotFoundError := by
  simp [reducer, hf]

lemma reducer_SUBMIT (s : CartStateType) (payload : Option CartItemType) :
    reducer s ⟨"SUBMIT", payload⟩ = .ok ⟨[]⟩ := by simp [reducer]

lemma reducer_unknown (s : CartStateType) (a : ReducerAction)
    (h1 : a.type ≠ "ADD") (h2 : a.type ≠ "REMOVE")
    (h3 : a.type ≠ "QUANTITY") (h4 : a.type ≠ "SUBMIT") :
    reducer s a = .error .UnrecognizedActionError := by
  simp [reducer, h1, h2, h3, h4]

lemma step_of_ok {s s' : CartStateType} {a : ReducerAction}
    (h : reducer s a = .ok s') : step s a = s' := by
  simp [step, h]

lemma step_of_error {s : CartStateType} {a : ReducerAction} {e : CartError}
    (h : reducer s a = .error e) : step s a = s := by
  simp [step, h]

lemma step_add_same_existing (sku nm : String) (pr : ℚ) (k : ℤ) (p : CartItemType)
    (hp : p.sku = sku) :
    step ⟨[⟨sku, nm, pr, k⟩]⟩ ⟨"ADD", some p⟩
      = ⟨[⟨sku, p.name, p.price, k + 1⟩]⟩ := by
  have hf : (⟨[⟨sku, nm, pr, k⟩]⟩ : CartStateType).cart.find?
      (fun i => i.sku == p.sku) = some ⟨sku, nm, pr, k⟩ := by
    simp [List.find?, hp]
  rw [step_of_ok (reducer_ADD_found _ _ _ hf)]
  simp [hp, List.filter]

lemma run_add_same (sku : String) :
    ∀ (ps : List CartItemType) (nm : String) (pr : ℚ) (k : ℤ),
      (∀ p ∈ ps, p.sku = sku) →
      ∃ nm' pr',
        List.foldl step ⟨[⟨sku, nm, pr, k⟩]⟩ (ps.map (fun p => ⟨"ADD", some p⟩))
          = ⟨[⟨sku, nm', pr', k + ps.length⟩]⟩ := by
  intro ps
  induction ps with
  | nil => intro nm pr k _; exact ⟨nm, pr, by simp⟩
  | cons p rest ih =>
    intro nm pr k hall
    have hp : p.sku = sku := hall p (by simp)
    have hrest : ∀ q ∈ rest, q.sku = sku := fun q hq => hall q (by simp [hq])
    obtain ⟨nm', pr', h⟩ := ih p.name p.price (k + 1) hrest
    refine ⟨nm', pr', ?_⟩
    have harith : k + 1 + (rest.length : ℤ) = k + ((rest.length : ℤ) + 1) := by ring
    simp only [List.map_cons, List.foldl_cons, step_add_same_existing sku nm pr k p hp, h,
      List.length_cons, Nat.cast_add, Nat.cast_one, harith]

lemma step_add_initial (p : CartItemType) :
    step initCartState ⟨"ADD", some p⟩ = ⟨[⟨p.sku, p.name, p.price, 1⟩]⟩ := by
  have hf : (initCartState).cart.find? (fun i => i.sku == p.sku) = none := by
    simp [initCartState]
  rw [step_of_ok (reducer_ADD_new _ _ hf)]
  simp [initCartState]

/-- Invariants that hold of the initial state and are preserved by every
dispatch of an action satisfying `Q` hold of every reachable state. -/
lemma foldl_step_inv (P : CartStateType → Prop) (Q : ReducerAction → Prop)
    (hstep : ∀ s a, P s → Q a → P (step s a)) :
    ∀ (acts : List ReducerAction) (s : CartStateType),
      P s → (∀ a ∈ acts, Q a) → P (acts.foldl step s) := by
  intro acts
  induction acts with
  | nil => intro s hs _; simpa using hs
  | cons a as ih =>
    intro s hs hq
    simp only [List.foldl_cons]
    exact ih _ (hstep s a hs (hq a (by simp))) (fun b hb => hq b (by simp [hb]))

lemma mem_filter_append {l : List CartItemType} {sku : String} {x y : CartItemType}
    (h : y ∈ l.filter (fun i => i.sku ≠ sku) ++ [x]) :
    y ∈ l ∨ y = x := by
  rcases List.mem_append.mp h with h' | h'
  · exact Or.inl (List.mem_of_mem_filter h')
  · exact Or.inr (List.mem_singleton.mp h')

lemma step_preserves_qty_ge_one (s : CartStateType) (a : ReducerAction)
    (hP : ∀ l ∈ s.cart, 1 ≤ l.qty)
    (hQ : a.type = "QUANTITY" → (a.payload.all (fun p => 1 ≤ p.qty)) = true) :
    ∀ l ∈ (step s a).cart, 1 ≤ l.qty := by
  obtain ⟨t, payload⟩ := a
  by_cases hA : t = "ADD"
  · subst hA
    rcases payload with _ | p
    · rw [step_of_error (reducer_ADD_none s)]; exact hP
    · rcases hf : s.cart.find? (fun i => i.sku == p.sku) with _ | item
      · rw [step_of_ok (reducer_ADD_new s p hf)]
        intro l hl
        rcases mem_filter_append hl with h' | h'
        · exact hP l h'
        · subst h'; exact le_refl 1
      · rw [step_of_ok (reducer_ADD_found s p item hf)]
        intro l hl
        rcases mem_filter_append hl with h' | h'
        · exact hP l h'
        · subst h'
          have := hP item (List.mem_of_find?_eq_some hf)
          show 1 ≤ item.qty + 1
          omega
  · by_cases hR : t = "REMOVE"
    · subst hR
      rcases payload with _ | p
      · rw [step_of_error (reducer_REMOVE_none s)]; exact hP
      · rw [step_of_ok (reducer_REMOVE_some s p)]
        intro l hl
        exact hP l (List.mem_of_mem_filter hl)
    · by_cases hQty : t = "QUANTITY"
      · subst hQty
        rcases payload with _ | p
        · rw [step_of_error (reducer_QUANTITY_none s)]; exact hP
        · rcases hf : s.cart.find? (fun i => i.sku == p.sku) with _ | item
          · rw [step_of_error (reducer_QUANTITY_missing s p hf)]; exact hP
          · rw [step_of_ok (reducer_QUANTITY_found s p item hf)]
            intro l hl
            rcases mem_filter_append hl with h' | h'
            · exact hP l h'
            · subst h'
              have := hQ rfl
              simpa using this
      · by_cases hS : t = "SUBMIT"
        · subst hS
          rw [step_of_ok (reducer_SUBMIT s payload)]
          intro l hl
          simp at hl
        · rw [step_of_error (reducer_unknown s ⟨t, payload⟩ hA hR hQty hS)]
          exact hP

lemma pairwise_filter_append {l : List CartItemType} {k : String} {x : CartItemType}
    (hl : l.Pairwise (fun a b => a.sku ≠ b.sku)) (hx : x.sku = k) :
    (l.filter (fun i => i.sku ≠ k) ++ [x]).Pairwise (fun a b => a.sku ≠ b.sku) := by
  rw [List.pairwise_append]
  refine ⟨hl.filter _, List.pairwise_singleton _ _, ?_⟩
  intro a ha b hb
  rw [List.mem_singleton] at hb
  subst hb
  have h2 := (List.mem_filter.mp ha).2
  rw [hx]
  simpa using h2

lemma step_preserves_sku_unique (s : CartStateType) (a : ReducerAction)
    (hP : s.cart.Pairwise (fun a b => a.sku ≠ b.sku)) :
    (step s a).cart.Pairwise (fun a b => a.sku ≠ b.sku) := by
  obtain ⟨t, payload⟩ := a
  by_cases hA : t = "ADD"
  · subst hA
    rcases payload with _ | p
    · rw [step_of_error (reducer_ADD_none s)]; exact hP
    · rcases hf : s.cart.find? (fun i => i.sku == p.sku) with _ | item
      · exact step_of_ok (reducer_ADD_new s p hf) ▸ pairwise_filter_append hP rfl
      · exact step_of_ok (reducer_ADD_found s p item hf) ▸ pairwise_filter_append hP rfl
  · by_cases hR : t = "REMOVE"
    · subst hR
      rcases payload with _ | p
      · rw [step_of_error (reducer_REMOVE_none s)]; exact hP
      · rw [step_of_ok (reducer_REMOVE_some s p)]
        exact hP.filter _
    · by_cases hQty : t = "QUANTITY"
      · subst hQty
        rcases payload with _ | p
        · rw [step_of_error (reducer_QUANTITY_none s)]; exact hP
        · rcases hf : s.cart.find? (fun i => i.sku == p.sku) with _ | item
          · rw [step_of_error (reducer_QUANTITY_missing s p hf)]; exact hP
          · rw [step_of_ok (reducer_QUANTITY_found s p item hf)]
            have hsku : item.sku = p.sku := by
              have := List.find?_some hf
              simpa using this
            exact pairwise_filter_append hP hsku
      · by_cases hS : t = "SUBMIT"
        · subst hS
          rw [step_of_ok (reducer_SUBMIT s payload)]
          simp
        · rw [step_of_error (reducer_unknown s ⟨t, payload⟩ hA hR hQty hS)]
          exact hP

/-! ## Helper lemmas: the display sort -/
lemma displayOrder_perm (s : CartStateType) : (displayOrder s).Perm s.cart :=
  List.perm_insertionSort keyLE s.cart

lemma displayOrder_sorted (s : CartStateType) :
    List.Sorted keyLE (displayOrder s) :=
  List.sorted_insertionSort keyLE s.cart

lemma insertionSort_idem (l : List CartItemType) :
    List.insertionSort keyLE (List.insertionSort keyLE l)
      = List.insertionSort keyLE l :=
  (List.sorted_insertionSort keyLE l).insertionSort_eq

lemma filter_key_orderedInsert_eq (a : CartItemType) (l : List CartItemType) (k : ℕ)
    (ha : skuKey a.sku = k) :
    (List.orderedInsert keyLE a l).filter (fun x => skuKey x.sku == k)
      = a :: l.filter (fun x => skuKey x.sku == k) := by
  induction l with
  | nil => simp [ha]
  | cons b bs ih =>
    by_cases h : keyLE a b
    · simp only [List.orderedInsert, if_pos h]
      simp [ha]
    · have hb : ¬ skuKey b.sku = k := by
        unfold keyLE at h
        omega
      simp only [List.orderedInsert, if_neg h]
      rw [List.filter_cons]
      simp only [hb, beq_iff_eq, if_neg hb, decide_eq_true_eq]
      rw [ih, List.filter_cons]
      simp [hb]

lemma filter_key_orderedInsert_ne (a : CartItemType) (l : List CartItemType) (k : ℕ)
    (ha : ¬ skuKey a.sku = k) :
    (List.orderedInsert keyLE a l).filter (fun x => skuKey x.sku == k)
      = l.filter (fun x => skuKey x.sku == k) := by
  induction l with
  | nil => simp [ha]
  | cons b bs ih =>
    by_cases h : keyLE a b
    · simp only [List.orderedInsert, if_pos h]
      rw [List.filter_cons]
      simp [ha]
    · simp only [List.orderedInsert, if_neg h]
      rw [List.filter_cons, ih, List.filter_cons]

lemma filter_key_insertionSort (l : List CartItemType) (k : ℕ) :
    (List.insertionSort keyLE l).filter (fun x => skuKey x.sku == k)
      = l.filter (fun x => skuKey x.sku == k) := by
  induction l with
  | nil => rfl
  | cons x xs ih =>
    by_cases hx : skuKey x.sku = k
    · rw [List.insertionSort, filter_key_orderedInsert_eq x _ k hx, ih,
        List.filter_cons]
      simp [hx]
    · rw [List.insertionSort, filter_key_orderedInsert_ne x _ k hx, ih,
        List.filter_cons]
      simp [hx]

/-! ## Helper lemmas: the aggregates are permutation invariant -/
lemma foldl_add_qty (l : List CartItemType) (c : ℤ) :
    l.foldl (fun previousValue cartItem => previousValue + cartItem.qty) c
      = c + (l.map (fun i => i.qty)).sum := by
  induction l generalizing c with
  | nil => simp
  | cons x xs ih => rw [List.foldl_cons, ih, List.map_cons, List.sum_cons]; ring

lemma foldl_add_price (l : List CartItemType) (c : ℚ) :
    l.foldl (fun previousValue cartItem =>
        previousValue + (cartItem.qty : ℚ) * cartItem.price) c
      = c + (l.map (fun i => (i.qty : ℚ) * i.price)).sum := by
  induction l generalizing c with
  | nil => simp
  | cons x xs ih => rw [List.foldl_cons, ih, List.map_cons, List.sum_cons]; ring

lemma totalItems_congr_perm {l1 l2 : List CartItemType} (h : l1.Perm l2) :
    totalItems ⟨l1⟩ = totalItems ⟨l2⟩ := by
  unfold totalItems
  rw [foldl_add_qty, foldl_add_qty, (h.map _).sum_eq]

lemma totalPriceRaw_congr_perm {l1 l2 : List CartItemType} (h : l1.Perm l2) :
    totalPriceRaw ⟨l1⟩ = totalPriceRaw ⟨l2⟩ := by
  unfold totalPriceRaw
  rw [foldl_add_price, foldl_add_price, (h.map _).sum_eq]

/-! ## The claims -/

/-- C1 -/
theorem spec_C1_read_mutates_state :
    (useCartContext ⟨[⟨"item0002", "Premium Widget", 2, 1⟩,
        ⟨"item0001", "Widget", 1, 1⟩]⟩).2
      = ⟨[⟨"item0001", "Widget", 1, 1⟩, ⟨"item0002", "Premium Widget", 2, 1⟩]⟩ ∧
    (useCartContext ⟨[⟨"item0002", "Premium Widget", 2, 1⟩,
        ⟨"item0001", "Widget", 1, 1⟩]⟩).2
      ≠ ⟨[⟨"item0002", "Premium Widget", 2, 1⟩, ⟨"item0001", "Widget", 1, 1⟩]⟩ := by
  decide

/-- C2 amended -/
theorem spec_C2_qty_invariant (acts : List ReducerAction)
    (hq : ∀ a ∈ acts, a.type = "QUANTITY" →
      (a.payload.all (fun p => 1 ≤ p.qty)) = true) :
    ∀ l ∈ (run acts).cart, 1 ≤ l.qty := by
  have h := foldl_step_inv (fun s => ∀ l ∈ s.cart, 1 ≤ l.qty)
    (fun a => a.type = "QUANTITY" → (a.payload.all (fun p => 1 ≤ p.qty)) = true)
    step_preserves_qty_ge_one acts initCartState
  refine h ?_ hq
  intro l hl
  simp [initCartState] at hl

theorem spec_C2_counterexample :
    ((run [⟨"ADD", some ⟨"item0001", "Widget", 1, 1⟩⟩,
           ⟨"QUANTITY", some ⟨"item0001", "Widget", 1, 0⟩⟩]).cart.any
      (fun l => decide (l.qty < 1))) = true := by decide

theorem spec_C2_witness :
    (∀ a ∈ [(⟨"ADD", some ⟨"item0001", "Widget", 1, 1⟩⟩ : ReducerAction),
        ⟨"QUANTITY", some ⟨"item0001", "Widget", 1, 5⟩⟩],
      a.type = "QUANTITY" → (a.payload.all (fun p => 1 ≤ p.qty)) = true) ∧
    ∀ l ∈ (run [(⟨"ADD", some ⟨"item0001", "Widget", 1, 1⟩⟩ : ReducerAction),
        ⟨"QUANTITY", some ⟨"item0001", "Widget", 1, 5⟩⟩]).cart, 1 ≤ l.qty :=
  ⟨by decide, spec_C2_qty_invariant _ (by decide)⟩

/-- C3 -/
theorem spec_C3_repeated_add (ps : List CartItemType) (sku : String)
    (hne : ps ≠ []) (hall : ∀ p ∈ ps, p.sku = sku) :
    ((run (ps.map (fun p => ⟨"ADD", some p⟩))).cart.filter
        (fun l => l.sku == sku)).length = 1 ∧
    ∀ l ∈ (run (ps.map (fun p => ⟨"ADD", some p⟩))).cart,
      l.sku = sku ∧ l.qty = (ps.length : ℤ) := by
  match ps, hne with
  | p :: rest, _ =>
    have hp : p.sku = sku := hall p (by simp)
    have hrest : ∀ q ∈ rest, q.sku = sku := fun q hq => hall q (by simp [hq])
    obtain ⟨nm', pr', h⟩ := run_add_same sku rest p.name p.price 1 hrest
    have hrun : run ((p :: rest).map (fun q => ⟨"ADD", some q⟩))
        = ⟨[⟨sku, nm', pr', 1 + rest.length⟩]⟩ := by
      unfold run
      simp only [List.map_cons, List.foldl_cons, step_add_initial, hp]
      exact h
    rw [hrun]
    constructor
    · simp [List.filter]
    · intro l hl
      simp only [List.mem_singleton] at hl
      subst hl
      refine ⟨rfl, ?_⟩
      show 1 + (rest.length : ℤ) = ((rest.length + 1 : ℕ) : ℤ)
      push_cast
      ring

theorem spec_C3_witness :
    ([(⟨"item0001", "Widget", 1, 1⟩ : CartItemType),
      ⟨"item0001", "Widget", 1, 1⟩, ⟨"item0001", "Widget", 1, 1⟩] ≠ []) ∧
    (∀ p ∈ [(⟨"item0001", "Widget", 1, 1⟩ : CartItemType),
      ⟨"item0001", "Widget", 1, 1⟩, ⟨"item0001", "Widget", 1, 1⟩], p.sku = "item0001") ∧
    ((run ([(⟨"item0001", "Widget", 1, 1⟩ : CartItemType),
        ⟨"item0001", "Widget", 1, 1⟩, ⟨"item0001", "Widget", 1, 1⟩].map
          (fun p => ⟨"ADD", some p⟩))).cart.filter
        (fun l => l.sku == "item0001")).length = 1 ∧
    ∀ l ∈ (run ([(⟨"item0001", "Widget", 1, 1⟩ : CartItemType),
        ⟨"item0001", "Widget", 1, 1⟩, ⟨"item0001", "Widget", 1, 1⟩].map
          (fun p => ⟨"ADD", some p⟩))).cart,
      l.sku = "item0001" ∧ l.qty = (3 : ℤ) :=
  ⟨by decide, by decide,
    (spec_C3_repeated_add _ "item0001" (by decide) (by decide)).1,
    (spec_C3_repeated_add _ "item0001" (by decide) (by decide)).2⟩

/-- C4 -/
theorem spec_C4_at_most_one_line_per_sku (acts : List ReducerAction) :
    (run acts).cart.Pairwise (fun a b => a.sku ≠ b.sku) := by
  have h := foldl_step_inv (fun s => s.cart.Pairwise (fun a b => a.sku ≠ b.sku))
    (fun _ => True) (fun s a hs _ => step_preserves_sku_unique s a hs) acts initCartState
  exact h (by simp [initCartState]) (fun _ _ => trivial)

/-- C5 -/
theorem spec_C5_display_order_sorted_stable (s : CartStateType) (k : ℕ)
    (_hnum : ∀ l ∈ s.cart, numericSuffix l.sku) :
    (displayOrder s).Perm s.cart ∧
    (displayOrder s).Pairwise (fun a b => skuKey a.sku ≤ skuKey b.sku) ∧
    (displayOrder s).filter (fun l => skuKey l.sku == k)
      = s.cart.filter (fun l => skuKey l.sku == k) ∧
    (displayOrder (run
        [⟨"ADD", some ⟨"item0003", "Deluxe Widget", 29.99, 1⟩⟩,
         ⟨"ADD", some ⟨"item0001", "Widget", 9.99, 1⟩⟩,
         ⟨"ADD", some ⟨"item0002", "Premium Widget", 19.99, 1⟩⟩])).map
      (fun l => l.sku) = ["item0001", "item0002", "item0003"] := by
  refine ⟨displayOrder_perm s, displayOrder_sorted s, filter_key_insertionSort s.cart k, ?_⟩
  decide

theorem spec_C5_witness :
    (∀ l ∈ (⟨[⟨"item0003", "Deluxe Widget", 3, 1⟩, ⟨"item0001", "Widget", 1, 1⟩,
        ⟨"item0002", "Premium Widget", 2, 1⟩]⟩ : CartStateType).cart,
      numericSuffix l.sku) ∧
    (displayOrder ⟨[⟨"item0003", "Deluxe Widget", 3, 1⟩, ⟨"item0001", "Widget", 1, 1⟩,
        ⟨"item0002", "Premium Widget", 2, 1⟩]⟩).Perm
      [⟨"item0003", "Deluxe Widget", 3, 1⟩, ⟨"item0001", "Widget", 1, 1⟩,
        ⟨"item0002", "Premium Widget", 2, 1⟩] ∧
    (displayOrder ⟨[⟨"item0003", "Deluxe Widget", 3, 1⟩, ⟨"item0001", "Widget", 1, 1⟩,
        ⟨"item0002", "Premium Widget", 2, 1⟩]⟩).Pairwise
      (fun a b => skuKey a.sku ≤ skuKey b.sku) ∧
    (displayOrder ⟨[⟨"item0003", "Deluxe Widget", 3, 1⟩, ⟨"item0001", "Widget", 1, 1⟩,
        ⟨"item0002", "Premium Widget", 2, 1⟩]⟩).filter
        (fun l => skuKey l.sku == 2)
      = ([⟨"item0003", "Deluxe Widget", 3, 1⟩, ⟨"item0001", "Widget", 1, 1⟩,
        ⟨"item0002", "Premium Widget", 2, 1⟩] : List CartItemType).filter
        (fun l => skuKey l.sku == 2) := by
  have h := spec_C5_display_order_sorted_stable
    ⟨[⟨"item0003", "Deluxe Widget", 3, 1⟩, ⟨"item0001", "Widget", 1, 1⟩,
      ⟨"item0002", "Premium Widget", 2, 1⟩]⟩ 2 (by decide)
  exact ⟨by decide, h.1, h.2.1, h.2.2.1⟩

/-- C6 -/
theorem spec_C6_quantity_absent_sku (s : CartStateType) (p : CartItemType)
    (h : ∀ l ∈ s.cart, l.sku ≠ p.sku) :
    reducer s ⟨"QUANTITY", some p⟩ = .error .NotFoundError ∧
    step s ⟨"QUANTITY", some p⟩ = s := by
  have hf : s.cart.find? (fun i => i.sku == p.sku) = none := by
    rw [List.find?_eq_none]
    intro x hx
    simpa using h x hx
  exact ⟨reducer_QUANTITY_missing s p hf,
    step_of_error (reducer_QUANTITY_missing s p hf)⟩

theorem spec_C6_witness :
    (∀ l ∈ (⟨[⟨"item0001", "Widget", 1, 1⟩]⟩ : CartStateType).cart,
        l.sku ≠ "item0002") ∧
    reducer ⟨[⟨"item0001", "Widget", 1, 1⟩]⟩
        ⟨"QUANTITY", some ⟨"item0002", "Premium Widget", 2, 4⟩⟩
      = .error .NotFoundError ∧
    step ⟨[⟨"item0001", "Widget", 1, 1⟩]⟩
        ⟨"QUANTITY", some ⟨"item0002", "Premium Widget", 2, 4⟩⟩
      = ⟨[⟨"item0001", "Widget", 1, 1⟩]⟩ :=
  ⟨by decide, spec_C6_quantity_absent_sku _ _ (by decide)⟩

/-- C7 -/
theorem spec_C7_unknown_action (s : CartStateType) (a : ReducerAction)
    (h1 : a.type ≠ "ADD") (h2 : a.type ≠ "REMOVE")
    (h3 : a.type ≠ "QUANTITY") (h4 : a.type ≠ "SUBMIT") :
    reducer s a = .error .UnrecognizedActionError ∧ step s a = s :=
  ⟨reducer_unknown s a h1 h2 h3 h4,
    step_of_error (reducer_unknown s a h1 h2 h3 h4)⟩

theorem spec_C7_witness :
    ("UNKNOWN" ≠ "ADD") ∧ ("UNKNOWN" ≠ "REMOVE") ∧ ("UNKNOWN" ≠ "QUANTITY") ∧
    ("UNKNOWN" ≠ "SUBMIT") ∧
    reducer ⟨[⟨"item0001", "Widget", 1, 1⟩]⟩ ⟨"UNKNOWN", none⟩
      = .error .UnrecognizedActionError ∧
    step ⟨[⟨"item0001", "Widget", 1, 1⟩]⟩ ⟨"UNKNOWN", none⟩
      = ⟨[⟨"item0001", "Widget", 1, 1⟩]⟩ :=
  ⟨by decide, by decide, by decide, by decide,
    spec_C7_unknown_action ⟨[⟨"item0001", "Widget", 1, 1⟩]⟩ ⟨"UNKNOWN", none⟩
      (by decide) (by decide) (by decide) (by decide)⟩

/-- C8 -/
theorem spec_C8_reads_idempotent (s : CartStateType) :
    useCartContext (useCartContext s).2 = useCartContext s := by
  have hperm : (displayOrder s).Perm s.cart := displayOrder_perm s
  obtain ⟨c⟩ := s
  simp only [useCartContext, Prod.mk.injEq, CartReads.mk.injEq, CartStateType.mk.injEq]
  refine ⟨⟨?_, ?_, ?_⟩, ?_⟩
  · exact totalItems_congr_perm hperm
  · unfold totalPrice
    rw [totalPriceRaw_congr_perm hperm]
  · exact insertionSort_idem c
  · exact insertionSort_idem c

/-- C9 -/
theorem spec_C9_totals :
    totalItems ⟨[⟨"item0001", "Widget", 9.99, 2⟩,
        ⟨"item0002", "Premium Widget", 19.99, 1⟩]⟩ = 3 ∧
    totalPrice ⟨[⟨"item0001", "Widget", 9.99, 2⟩,
        ⟨"item0002", "Premium Widget", 19.99, 1⟩]⟩ = "$39.97" := by
  constructor
  · decide
  · have h1 : totalPriceRaw ⟨[⟨"item0001", "Widget", 9.99, 2⟩,
        ⟨"item0002", "Premium Widget", 19.99, 1⟩]⟩ = 3997 / 100 := by
      norm_num [totalPriceRaw]
    have h2 : roundHalfAwayFromZero ((3997 : ℚ) / 100 * 100) = 3997 := by
      unfold roundHalfAwayFromZero
      rw [if_neg (by norm_num)]
      have h3 : ((3997 : ℚ) / 100 * 100 + 1 / 2) = 3997 + 1 / 2 := by norm_num
      rw [h3, Int.floor_eq_iff]
      norm_num
    unfold totalPrice
    rw [h1]
    unfold formatUSD
    rw [h2]
    decide

/-- C10 -/
theorem spec_C10_update_relocates (s : CartStateType) (p item : CartItemType)
    (hf : s.cart.find? (fun i => i.sku == p.sku) = some item) :
    step s ⟨"ADD", some p⟩
      = ⟨s.cart.filter (fun i => i.sku ≠ p.sku)
          ++ [⟨p.sku, p.name, p.price, item.qty + 1⟩]⟩ ∧
    step s ⟨"QUANTITY", some p⟩
      = ⟨s.cart.filter (fun i => i.sku ≠ p.sku) ++ [{ item with qty := p.qty }]⟩ :=
  ⟨step_of_ok (reducer_ADD_found s p item hf),
    step_of_ok (reducer_QUANTITY_found s p item hf)⟩

theorem spec_C10_witness :
    ((⟨[⟨"item0001", "Widget", 1, 1⟩, ⟨"item0002", "Premium Widget", 2, 1⟩]⟩ :
        CartStateType).cart.find?
      (fun i => i.sku == "item0001") = some ⟨"item0001", "Widget", 1, 1⟩) ∧
    step ⟨[⟨"item0001", "Widget", 1, 1⟩, ⟨"item0002", "Premium Widget", 2, 1⟩]⟩
        ⟨"ADD", some ⟨"item0001", "Widget", 1, 1⟩⟩
      = ⟨[⟨"item0002", "Premium Widget", 2, 1⟩, ⟨"item0001", "Widget", 1, 2⟩]⟩ ∧
    step ⟨[⟨"item0001", "Widget", 1, 1⟩, ⟨"item0002", "Premium Widget", 2, 1⟩]⟩
        ⟨"QUANTITY", some ⟨"item0001", "Widget", 1, 5⟩⟩
      = ⟨[⟨"item0002", "Premium Widget", 2, 1⟩, ⟨"item0001", "Widget", 1, 5⟩]⟩ := by
  refine ⟨by decide, ?_⟩
  have h := spec_C10_update_relocates
    ⟨[⟨"item0001", "Widget", 1, 1⟩, ⟨"item0002", "Premium Widget", 2, 1⟩]⟩
    ⟨"item0001", "Widget", 1, 5⟩ ⟨"item0001", "Widget", 1, 1⟩ (by decide)
  refine ⟨?_, ?_⟩
  · exact h.1.trans (by decide)
  · exact h.2.trans (by decide)
